import Mathlib

/-!
Shallow embedding of the sail-or-motor voyage calculator from
`src/browser/src/lib.rs`.  Rust `f64` values are modelled as exact rationals
(`ℚ`), Rust `i32`/`u32` values as `ℤ`/`ℕ` with the truncating division and
saturating casts of the source made explicit, and `&str` values as `String`.
-/

namespace WasmDemo

/-- Rust `f64::round`: round to the nearest integer, ties away from zero. -/
def roundQ (q : ℚ) : ℤ :=
  if 0 ≤ q then ⌊q + 1 / 2⌋ else -⌊-q + 1 / 2⌋

/-- Rust `as i32` cast applied to a rounded `f64`: saturates at the `i32` range. -/
def i32Sat (z : ℤ) : ℤ :=
  if z < -2147483648 then -2147483648 else if 2147483647 < z then 2147483647 else z

/-- Rust `as u32` cast applied to a rounded `f64`: saturates at the `u32` range. -/
def u32Sat (z : ℤ) : ℕ :=
  if z < 0 then 0 else if 4294967295 < z then 4294967295 else z.toNat

/-- Rust `i32` addition as compiled in release mode: wraps on overflow
(two's complement).  A debug build would panic on overflow instead; the shipped
release behavior is modelled. -/
def i32Add (x y : ℤ) : ℤ :=
  (x + y + 2147483648) % 4294967296 - 2147483648

/-- Rust format specifier `{:02}`: zero-pad the decimal rendering to width two. -/
def pad2 (z : ℤ) : String :=
  if (toString z).length < 2 then "0" ++ toString z else toString z

/-- Rounding to the nearest integer with ties to even, as Rust `{:.2}` float
formatting rounds the exact decimal expansion. -/
def roundHalfEven (q : ℚ) : ℤ :=
  if q - ⌊q⌋ < 1 / 2 then ⌊q⌋
  else if 1 / 2 < q - ⌊q⌋ then ⌊q⌋ + 1
  else if ⌊q⌋ % 2 = 0 then ⌊q⌋ else ⌊q⌋ + 1

/-- Rust format specifier `{:.2}`: fixed two-decimal rendering of a float. -/
def fmt2 (q : ℚ) : String :=
  let n := roundHalfEven (|q| * 100)
  (if q < 0 then "-" else "") ++ toString (n / 100) ++ "." ++ pad2 (n % 100)

/-- `format_time` from `src/browser/src/lib.rs`: format hours as
"X uur en Y minuten", handling the 60-minute rollover. -/
def format_time (hours : ℚ) : String :=
  let total_minutes := u32Sat (roundQ (hours * 60))
  let h := total_minutes / 60
  let m := total_minutes % 60
  if 0 < m then toString h ++ " uur en " ++ toString m ++ " minuten"
  else toString h ++ " uur"

/-- `format_clock` from `src/browser/src/lib.rs`.  Rust `i32` division and
remainder truncate toward zero (`Int.tdiv` / `Int.tmod`). -/
def format_clock (total_minutes : ℤ) : String :=
  let h := Int.tmod (Int.tmod (Int.tdiv total_minutes 60) 24 + 24) 24
  let m := Int.tmod (Int.tmod total_minutes 60 + 60) 60
  pad2 h ++ ":" ++ pad2 m

/-- Rust `str::split(':')` on the character list of a string: splits at every
colon, keeping empty pieces. -/
def splitOnColon : List Char → List (List Char)
  | [] => [[]]
  | c :: rest =>
    match splitOnColon rest with
    | [] => [[]]
    | p :: ps => if c = ':' then [] :: p :: ps else (c :: p) :: ps

/-- Rust `str::parse::<u32>()`: an optional leading `'+'`, then one or more
ASCII digits, value at most `u32::MAX`. -/
def parseU32 (s : List Char) : Option ℕ :=
  let digits := if s.head? = some '+' then s.tail else s
  if digits.isEmpty then none
  else if digits.all Char.isDigit then
    let n := digits.foldl (fun acc c => acc * 10 + (c.toNat - 48)) 0
    if n < 4294967296 then some n else none
  else none

/-- `parse_time` from `src/browser/src/lib.rs`: split on `':'` into exactly two
parts, parse both as `u32`, and require hour < 24 and minute < 60. -/
def parse_time (time_str : String) : Option ℕ :=
  match splitOnColon time_str.toList with
  | [h_part, m_part] =>
    match parseU32 h_part, parseU32 m_part with
    | some hours, some minutes =>
      if 24 ≤ hours ∨ 60 ≤ minutes then none else some (hours * 60 + minutes)
    | _, _ => none
  | _ => none

/-- `SailResult` from `src/browser/src/lib.rs`. -/
structure SailResult where
  scenario : ℕ
  result_html : String
  sail_fraction : ℚ
  motor_fraction : ℚ
deriving DecidableEq

/-- Numeric scenario code 0 from the source. -/
def SCENARIO_ERROR : ℕ := 0

/-- Numeric scenario code 1 from the source. -/
def SCENARIO_SAIL_ONLY : ℕ := 1

/-- Numeric scenario code 2 from the source. -/
def SCENARIO_SAIL_AND_MOTOR : ℕ := 2

/-- Numeric scenario code 3 from the source. -/
def SCENARIO_MOTOR_ONLY : ℕ := 3

/-- Numeric scenario code 4 from the source. -/
def SCENARIO_MOTOR_LATE : ℕ := 4

/-- `error_result` from `src/browser/src/lib.rs`. -/
def error_result (msg : String) : SailResult :=
  { scenario := SCENARIO_ERROR
    result_html := msg
    sail_fraction := 0
    motor_fraction := 0 }

/-- `calculate` from `src/browser/src/lib.rs`: the core sail-or-motor
calculation. -/
def calculate (start_time arrival_time : String)
    (distance sail_speed motor_speed fuel_consumption : ℚ)
    (use_metric is_next_day : Bool) : SailResult :=
  match parse_time start_time with
  | none => error_result "Ongeldige starttijd."
  | some start_m =>
  match parse_time arrival_time with
  | none => error_result "Ongeldige aankomsttijd."
  | some arrival_m =>
  let start_mins : ℤ := start_m
  let arrival_mins : ℤ := arrival_m
  if distance ≤ 0 then error_result "Afstand moet groter zijn dan 0."
  else if sail_speed ≤ 0 then error_result "Zeilsnelheid moet groter zijn dan 0."
  else if motor_speed ≤ 0 then error_result "Motorsnelheid moet groter zijn dan 0."
  else if motor_speed ≤ sail_speed then
    error_result "Motorsnelheid moet groter zijn dan zeilsnelheid."
  else
  let diff_mins : ℤ := arrival_mins - start_mins + (if is_next_day then 24 * 60 else 0)
  let total_time : ℚ := (diff_mins : ℚ) / 60
  if total_time ≤ 0 then error_result "Aankomsttijd moet later zijn dan starttijd."
  else
  let dist : ℚ := if use_metric then distance / 1.852 else distance
  let s_speed : ℚ := if use_metric then sail_speed / 1.852 else sail_speed
  let m_speed : ℚ := if use_metric then motor_speed / 1.852 else motor_speed
  let unit : String := if use_metric then "km" else "zeemijl"
  let sail_time_limit : ℚ := dist / s_speed
  if sail_time_limit ≤ total_time then
    let dist_display := if use_metric then dist * 1.852 else dist
    { scenario := SCENARIO_SAIL_ONLY
      result_html := "Je kunt de hele afstand zeilen in " ++ format_time sail_time_limit ++
        " (" ++ fmt2 dist_display ++ " " ++ unit ++ ").<br>Geschat brandstofverbruik: 0 liter."
      sail_fraction := 1
      motor_fraction := 0 }
  else
  let motor_distance := m_speed * total_time
  let difference := dist - motor_distance
  let speed_difference := s_speed - m_speed
  let changeover_point := difference / speed_difference
  if 0 ≤ changeover_point ∧ changeover_point ≤ total_time then
    let distance_sailed := s_speed * changeover_point
    let remaining_distance := dist - distance_sailed
    let motoring_time := remaining_distance / m_speed
    let fuel := motoring_time * fuel_consumption
    let sailed_display := if use_metric then distance_sailed * 1.852 else distance_sailed
    let remaining_display := if use_metric then remaining_distance * 1.852 else remaining_distance
    let changeover_clock_mins := i32Add start_mins (i32Sat (roundQ (changeover_point * 60)))
    let changeover_clock := format_clock changeover_clock_mins
    { scenario := SCENARIO_SAIL_AND_MOTOR
      result_html := "Je kunt " ++ format_time changeover_point ++ " zeilen (" ++
        fmt2 sailed_display ++ " " ++ unit ++
        "). Daarna moet je overschakelen naar de motor voor de resterende " ++
        fmt2 remaining_display ++ " " ++ unit ++ ", wat " ++ format_time motoring_time ++
        " duurt.<br>Start de motor om <strong>" ++ changeover_clock ++
        "</strong>.<br><br>Geschat brandstofverbruik: " ++ fmt2 fuel ++ " liter."
      sail_fraction := changeover_point / total_time
      motor_fraction := motoring_time / total_time }
  else
  let time_to_motor_full := dist / m_speed
  if total_time < time_to_motor_full then
    let actual_arrival_mins := i32Add start_mins (i32Sat (roundQ (time_to_motor_full * 60)))
    let fuel := time_to_motor_full * fuel_consumption
    { scenario := SCENARIO_MOTOR_LATE
      result_html := "Je kunt de hele afstand op de motor afleggen, maar je zult niet op tijd aankomen. <br>Je verwachte aankomsttijd is <strong>" ++
        format_clock actual_arrival_mins ++
        "</strong>.<br><br>Geschat brandstofverbruik: " ++ fmt2 fuel ++ " liter."
      sail_fraction := 0
      motor_fraction := 1 }
  else
    let fuel := time_to_motor_full * fuel_consumption
    { scenario := SCENARIO_MOTOR_ONLY
      result_html := "Je kunt de hele afstand op de motor afleggen in " ++
        format_time time_to_motor_full ++
        ".<br><br>Geschat brandstofverbruik: " ++ fmt2 fuel ++ " liter."
      sail_fraction := 0
      motor_fraction := time_to_motor_full / total_time }

/-- `needs_next_day` from `src/browser/src/lib.rs`: true when both times parse
and the arrival is strictly before the start. -/
def needs_next_day (start_time arrival_time : String) : Bool :=
  match parse_time start_time with
  | none => false
  | some start =>
    match parse_time arrival_time with
    | none => false
    | some arrival => decide (arrival < start)

/-- Spec-side definition: zero-pad a natural number to two digits, as in the
specification's HH:MM rendering. -/
def specPad2 (n : ℕ) : String :=
  if (toString n).length < 2 then "0" ++ toString n else toString n

/-- Spec-side definition, following the specification's words: render a
minutes-since-midnight value as a zero-padded 24-hour HH:MM string.  Used to
state the spec's clock-time formulas, to be compared with `format_clock`. -/
def specClockHHMM (n : ℕ) : String :=
  specPad2 (n / 60) ++ ":" ++ specPad2 (n % 60)

/-- Proof-side regrouping of the scenario-selection part of `calculate`
(everything after validation and unit normalization), proved equal to
`calculate` on validated inputs in `calculate_valid_eq`. -/
def scenarioCore (start_mins : ℤ)
    (total_time dist s_speed m_speed fuel_consumption : ℚ)
    (use_metric : Bool) : SailResult :=
  let unit : String := if use_metric then "km" else "zeemijl"
  let sail_time_limit : ℚ := dist / s_speed
  if sail_time_limit ≤ total_time then
    let dist_display := if use_metric then dist * 1.852 else dist
    { scenario := SCENARIO_SAIL_ONLY
      result_html := "Je kunt de hele afstand zeilen in " ++ format_time sail_time_limit ++
        " (" ++ fmt2 dist_display ++ " " ++ unit ++ ").<br>Geschat brandstofverbruik: 0 liter."
      sail_fraction := 1
      motor_fraction := 0 }
  else
  let motor_distance := m_speed * total_time
  let difference := dist - motor_distance
  let speed_difference := s_speed - m_speed
  let changeover_point := difference / speed_difference
  if 0 ≤ changeover_point ∧ changeover_point ≤ total_time then
    let distance_sailed := s_speed * changeover_point
    let remaining_distance := dist - distance_sailed
    let motoring_time := remaining_distance / m_speed
    let fuel := motoring_time * fuel_consumption
    let sailed_display := if use_metric then distance_sailed * 1.852 else distance_sailed
    let remaining_display := if use_metric then remaining_distance * 1.852 else remaining_distance
    let changeover_clock_mins := i32Add start_mins (i32Sat (roundQ (changeover_point * 60)))
    let changeover_clock := format_clock changeover_clock_mins
    { scenario := SCENARIO_SAIL_AND_MOTOR
      result_html := "Je kunt " ++ format_time changeover_point ++ " zeilen (" ++
        fmt2 sailed_display ++ " " ++ unit ++
        "). Daarna moet je overschakelen naar de motor voor de resterende " ++
        fmt2 remaining_display ++ " " ++ unit ++ ", wat " ++ format_time motoring_time ++
        " duurt.<br>Start de motor om <strong>" ++ changeover_clock ++
        "</strong>.<br><br>Geschat brandstofverbruik: " ++ fmt2 fuel ++ " liter."
      sail_fraction := changeover_point / total_time
      motor_fraction := motoring_time / total_time }
  else
  let time_to_motor_full := dist / m_speed
  if total_time < time_to_motor_full then
    let actual_arrival_mins := i32Add start_mins (i32Sat (roundQ (time_to_motor_full * 60)))
    let fuel := time_to_motor_full * fuel_consumption
    { scenario := SCENARIO_MOTOR_LATE
      result_html := "Je kunt de hele afstand op de motor afleggen, maar je zult niet op tijd aankomen. <br>Je verwachte aankomsttijd is <strong>" ++
        format_clock actual_arrival_mins ++
        "</strong>.<br><br>Geschat brandstofverbruik: " ++ fmt2 fuel ++ " liter."
      sail_fraction := 0
      motor_fraction := 1 }
  else
    let fuel := time_to_motor_full * fuel_consumption
    { scenario := SCENARIO_MOTOR_ONLY
      result_html := "Je kunt de hele afstand op de motor afleggen in " ++
        format_time time_to_motor_full ++
        ".<br><br>Geschat brandstofverbruik: " ++ fmt2 fuel ++ " liter."
      sail_fraction := 0
      motor_fraction := time_to_motor_full / total_time }

lemma calculate_err_start {st : String} (ar : String)
    (distance sail_speed motor_speed fuel_consumption : ℚ) (um nd : Bool)
    (hps : parse_time st = none) :
    calculate st ar distance sail_speed motor_speed fuel_consumption um nd =
      error_result "Ongeldige starttijd." := by
  unfold calculate
  rw [hps]

lemma calculate_err_arrival {st ar : String} {s : ℕ}
    (distance sail_speed motor_speed fuel_consumption : ℚ) (um nd : Bool)
    (hs : parse_time st = some s) (hpa : parse_time ar = none) :
    calculate st ar distance sail_speed motor_speed fuel_consumption um nd =
      error_result "Ongeldige aankomsttijd." := by
  unfold calculate
  rw [hs, hpa]

lemma calculate_err_distance {st ar : String} {s a : ℕ} {distance : ℚ}
    (sail_speed motor_speed fuel_consumption : ℚ) (um nd : Bool)
    (hs : parse_time st = some s) (ha : parse_time ar = some a)
    (h : distance ≤ 0) :
    calculate st ar distance sail_speed motor_speed fuel_consumption um nd =
      error_result "Afstand moet groter zijn dan 0." := by
  unfold calculate
  rw [hs, ha]
  simp only [if_pos h]

lemma calculate_err_sail {st ar : String} {s a : ℕ} {distance sail_speed : ℚ}
    (motor_speed fuel_consumption : ℚ) (um nd : Bool)
    (hs : parse_time st = some s) (ha : parse_time ar = some a)
    (h1 : ¬distance ≤ 0) (h : sail_speed ≤ 0) :
    calculate st ar distance sail_speed motor_speed fuel_consumption um nd =
      error_result "Zeilsnelheid moet groter zijn dan 0." := by
  unfold calculate
  rw [hs, ha]
  simp only [if_neg h1, if_pos h]

lemma calculate_err_motor {st ar : String} {s a : ℕ} {distance sail_speed motor_speed : ℚ}
    (fuel_consumption : ℚ) (um nd : Bool)
    (hs : parse_time st = some s) (ha : parse_time ar = some a)
    (h1 : ¬distance ≤ 0) (h2 : ¬sail_speed ≤ 0) (h : motor_speed ≤ 0) :
    calculate st ar distance sail_speed motor_speed fuel_consumption um nd =
      error_result "Motorsnelheid moet groter zijn dan 0." := by
  unfold calculate
  rw [hs, ha]
  simp only [if_neg h1, if_neg h2, if_pos h]

lemma calculate_err_motor_le_sail {st ar : String} {s a : ℕ}
    {distance sail_speed motor_speed : ℚ}
    (fuel_consumption : ℚ) (um nd : Bool)
    (hs : parse_time st = some s) (ha : parse_time ar = some a)
    (h1 : ¬distance ≤ 0) (h2 : ¬sail_speed ≤ 0) (h3 : ¬motor_speed ≤ 0)
    (h : motor_speed ≤ sail_speed) :
    calculate st ar distance sail_speed motor_speed fuel_consumption um nd =
      error_result "Motorsnelheid moet groter zijn dan zeilsnelheid." := by
  unfold calculate
  rw [hs, ha]
  simp only [if_neg h1, if_neg h2, if_neg h3, if_pos h]

lemma calculate_err_time {st ar : String} {s a : ℕ}
    {distance sail_speed motor_speed : ℚ} {nd : Bool}
    (fuel_consumption : ℚ) (um : Bool)
    (hs : parse_time st = some s) (ha : parse_time ar = some a)
    (h1 : ¬distance ≤ 0) (h2 : ¬sail_speed ≤ 0) (h3 : ¬motor_speed ≤ 0)
    (h4 : ¬motor_speed ≤ sail_speed)
    (h : (((a : ℤ) - (s : ℤ) + (if nd then 24 * 60 else 0) : ℤ) : ℚ) / 60 ≤ 0) :
    calculate st ar distance sail_speed motor_speed fuel_consumption um nd =
      error_result "Aankomsttijd moet later zijn dan starttijd." := by
  unfold calculate
  rw [hs, ha]
  simp only [if_neg h1, if_neg h2, if_neg h3, if_neg h4, if_pos h]

lemma calculate_valid_eq {st ar : String} {s a : ℕ}
    {distance sail_speed motor_speed : ℚ} {nd : Bool}
    (fuel_consumption : ℚ) (um : Bool)
    (hs : parse_time st = some s) (ha : parse_time ar = some a)
    (h1 : ¬distance ≤ 0) (h2 : ¬sail_speed ≤ 0) (h3 : ¬motor_speed ≤ 0)
    (h4 : ¬motor_speed ≤ sail_speed)
    (h5 : ¬(((a : ℤ) - (s : ℤ) + (if nd then 24 * 60 else 0) : ℤ) : ℚ) / 60 ≤ 0) :
    calculate st ar distance sail_speed motor_speed fuel_consumption um nd =
      scenarioCore (s : ℤ)
        ((((a : ℤ) - (s : ℤ) + (if nd then 24 * 60 else 0) : ℤ) : ℚ) / 60)
        (if um then distance / 1.852 else distance)
        (if um then sail_speed / 1.852 else sail_speed)
        (if um then motor_speed / 1.852 else motor_speed)
        fuel_consumption um := by
  unfold calculate scenarioCore
  rw [hs, ha]
  simp only [if_neg h1, if_neg h2, if_neg h3, if_neg h4, if_neg h5]

lemma scenarioCore_sail_only {total_time dist s_speed : ℚ}
    (start_mins : ℤ) (m_speed fuel_consumption : ℚ) (use_metric : Bool)
    (hfit : dist / s_speed ≤ total_time) :
    scenarioCore start_mins total_time dist s_speed m_speed fuel_consumption use_metric =
      { scenario := 1
        result_html := "Je kunt de hele afstand zeilen in " ++ format_time (dist / s_speed) ++
          " (" ++ fmt2 (if use_metric then dist * 1.852 else dist) ++ " " ++
          (if use_metric then "km" else "zeemijl") ++ ").<br>Geschat brandstofverbruik: 0 liter."
        sail_fraction := 1
        motor_fraction := 0 } := by
  unfold scenarioCore
  simp only [if_pos hfit]
  rfl

lemma scenarioCore_sail_motor {total_time dist s_speed m_speed : ℚ}
    (start_mins : ℤ) (fuel_consumption : ℚ) (use_metric : Bool)
    (hnofit : ¬dist / s_speed ≤ total_time)
    (hc0 : 0 ≤ (dist - m_speed * total_time) / (s_speed - m_speed))
    (hcT : (dist - m_speed * total_time) / (s_speed - m_speed) ≤ total_time) :
    scenarioCore start_mins total_time dist s_speed m_speed fuel_consumption use_metric =
      { scenario := 2
        result_html := "Je kunt " ++
          format_time ((dist - m_speed * total_time) / (s_speed - m_speed)) ++ " zeilen (" ++
          fmt2 (if use_metric then
              s_speed * ((dist - m_speed * total_time) / (s_speed - m_speed)) * 1.852
            else s_speed * ((dist - m_speed * total_time) / (s_speed - m_speed))) ++ " " ++
          (if use_metric then "km" else "zeemijl") ++
          "). Daarna moet je overschakelen naar de motor voor de resterende " ++
          fmt2 (if use_metric then
              (dist - s_speed * ((dist - m_speed * total_time) / (s_speed - m_speed))) * 1.852
            else dist - s_speed * ((dist - m_speed * total_time) / (s_speed - m_speed))) ++
          " " ++ (if use_metric then "km" else "zeemijl") ++ ", wat " ++
          format_time ((dist - s_speed * ((dist - m_speed * total_time) / (s_speed - m_speed))) /
            m_speed) ++
          " duurt.<br>Start de motor om <strong>" ++
          format_clock (i32Add start_mins
            (i32Sat (roundQ ((dist - m_speed * total_time) / (s_speed - m_speed) * 60)))) ++
          "</strong>.<br><br>Geschat brandstofverbruik: " ++
          fmt2 ((dist - s_speed * ((dist - m_speed * total_time) / (s_speed - m_speed))) /
            m_speed * fuel_consumption) ++ " liter."
        sail_fraction := (dist - m_speed * total_time) / (s_speed - m_speed) / total_time
        motor_fraction :=
          (dist - s_speed * ((dist - m_speed * total_time) / (s_speed - m_speed))) / m_speed /
            total_time } := by
  unfold scenarioCore
  simp only [if_neg hnofit, if_pos (And.intro hc0 hcT)]
  rfl

lemma scenarioCore_motor_late {total_time dist s_speed m_speed : ℚ}
    (start_mins : ℤ) (fuel_consumption : ℚ) (use_metric : Bool)
    (hnofit : ¬dist / s_speed ≤ total_time)
    (hnc : ¬(0 ≤ (dist - m_speed * total_time) / (s_speed - m_speed) ∧
      (dist - m_speed * total_time) / (s_speed - m_speed) ≤ total_time))
    (hlate : total_time < dist / m_speed) :
    scenarioCore start_mins total_time dist s_speed m_speed fuel_consumption use_metric =
      { scenario := 4
        result_html := "Je kunt de hele afstand op de motor afleggen, maar je zult niet op tijd aankomen. <br>Je verwachte aankomsttijd is <strong>" ++
          format_clock (i32Add start_mins (i32Sat (roundQ (dist / m_speed * 60)))) ++
          "</strong>.<br><br>Geschat brandstofverbruik: " ++
          fmt2 (dist / m_speed * fuel_consumption) ++ " liter."
        sail_fraction := 0
        motor_fraction := 1 } := by
  unfold scenarioCore
  simp only [if_neg hnofit, if_neg hnc, if_pos hlate]
  rfl

lemma scenarioCore_motor_only {total_time dist s_speed m_speed : ℚ}
    (start_mins : ℤ) (fuel_consumption : ℚ) (use_metric : Bool)
    (hnofit : ¬dist / s_speed ≤ total_time)
    (hnc : ¬(0 ≤ (dist - m_speed * total_time) / (s_speed - m_speed) ∧
      (dist - m_speed * total_time) / (s_speed - m_speed) ≤ total_time))
    (hontime : ¬total_time < dist / m_speed) :
    scenarioCore start_mins total_time dist s_speed m_speed fuel_consumption use_metric =
      { scenario := 3
        result_html := "Je kunt de hele afstand op de motor afleggen in " ++
          format_time (dist / m_speed) ++
          ".<br><br>Geschat brandstofverbruik: " ++
          fmt2 (dist / m_speed * fuel_consumption) ++ " liter."
        sail_fraction := 0
        motor_fraction := dist / m_speed / total_time } := by
  unfold scenarioCore
  simp only [if_neg hnofit, if_neg hnc, if_neg hontime]
  rfl

lemma metric_pos {x : ℚ} (um : Bool) (hx : 0 < x) :
    0 < (if um then x / 1.852 else x) := by
  cases um
  · simpa using hx
  · simpa using div_pos hx (by norm_num)

lemma metric_lt {x y : ℚ} (um : Bool) (h : x < y) :
    (if um then x / 1.852 else x) < (if um then y / 1.852 else y) := by
  cases um
  · simpa using h
  · simpa using div_lt_div_of_pos_right h (by norm_num)

lemma metric_div_cancel {y : ℚ} (um : Bool) (x : ℚ) (hy : y ≠ 0) :
    (if um then x / 1.852 else x) / (if um then y / 1.852 else y) = x / y := by
  cases um
  · simp
  · have h1852 : (1.852 : ℚ) ≠ 0 := by norm_num
    simp only [Bool.true_eq_false, if_true]
    field_simp

lemma scenarioCore_scenario_ne_zero (start_mins : ℤ)
    (total_time dist s_speed m_speed fuel_consumption : ℚ) (use_metric : Bool) :
    (scenarioCore start_mins total_time dist s_speed m_speed fuel_consumption
      use_metric).scenario ≠ 0 := by
  by_cases h1 : dist / s_speed ≤ total_time
  · rw [scenarioCore_sail_only _ _ _ _ h1]
    simp
  · by_cases h2 : 0 ≤ (dist - m_speed * total_time) / (s_speed - m_speed) ∧
      (dist - m_speed * total_time) / (s_speed - m_speed) ≤ total_time
    · rw [scenarioCore_sail_motor _ _ _ h1 h2.1 h2.2]
      simp
    · by_cases h3 : total_time < dist / m_speed
      · rw [scenarioCore_motor_late _ _ _ h1 h2 h3]
        simp
      · rw [scenarioCore_motor_only _ _ _ h1 h2 h3]
        simp

lemma format_clock_ofNat (n : ℕ) :
    format_clock (n : ℤ) = specClockHHMM (n % 1440) := by
  have e1 : Int.tmod (Int.tmod (Int.tdiv (n : ℤ) 60) 24 + 24) 24 =
      ((((n / 60) % 24 + 24) % 24 : ℕ) : ℤ) := rfl
  have e2 : Int.tmod (Int.tmod (n : ℤ) 60 + 60) 60 = (((n % 60 + 60) % 60 : ℕ) : ℤ) := rfl
  have p : ∀ k : ℕ, pad2 ((k : ℕ) : ℤ) = specPad2 k := fun k => rfl
  have h1 : ((n / 60) % 24 + 24) % 24 = n % 1440 / 60 := by omega
  have h2 : (n % 60 + 60) % 60 = n % 1440 % 60 := by omega
  unfold format_clock specClockHHMM
  simp only [e1, e2, p, h1, h2]

lemma motoring_eq_total_sub_changeover {T d ss ms : ℚ}
    (hne : ss - ms ≠ 0) (hms : ms ≠ 0) :
    (d - ss * ((d - ms * T) / (ss - ms))) / ms = T - (d - ms * T) / (ss - ms) := by
  field_simp
  ring

lemma changeover_le_total {T d ss ms : ℚ} (hss : 0 < ss) (hlt : ss < ms)
    (hnofit : ¬d / ss ≤ T) :
    (d - ms * T) / (ss - ms) ≤ T := by
  have hTd : T * ss < d := (lt_div_iff₀ hss).mp (not_le.mp hnofit)
  have hneg : ss - ms < 0 := sub_neg.mpr hlt
  have hne : ss - ms ≠ 0 := ne_of_lt hneg
  have hsub : (d - ms * T) / (ss - ms) - T = (d - ss * T) / (ss - ms) := by
    field_simp
    ring
  have hlt0 : (d - ss * T) / (ss - ms) < 0 :=
    div_neg_of_pos_of_neg (by nlinarith) hneg
  nlinarith [hsub, hlt0]

lemma late_of_no_changeover {T d ss ms : ℚ} (hss : 0 < ss) (hmspos : 0 < ms)
    (hlt : ss < ms) (hnofit : ¬d / ss ≤ T)
    (hnc : ¬(0 ≤ (d - ms * T) / (ss - ms) ∧ (d - ms * T) / (ss - ms) ≤ T)) :
    T < d / ms := by
  have hle := changeover_le_total hss hlt hnofit
  have hc0 : (d - ms * T) / (ss - ms) < 0 := by
    by_contra hge
    exact hnc ⟨not_lt.mp hge, hle⟩
  have hneg : ss - ms < 0 := sub_neg.mpr hlt
  have hnum : 0 < d - ms * T := by
    rcases div_neg_iff.mp hc0 with ⟨h, _⟩ | ⟨_, h⟩
    · exact h
    · exact absurd h (not_lt.mpr hneg.le)
  rw [lt_div_iff₀ hmspos]
  nlinarith

lemma metric_display_cancel (um : Bool) (x : ℚ) :
    (if um then (if um then x / 1.852 else x) * 1.852 else (if um then x / 1.852 else x)) = x := by
  cases um
  · simp
  · simp only [Bool.true_eq_false, if_true]
    rw [div_mul_cancel₀]
    norm_num

/-- C3: for every valid input with distance/sailSpeed ≤ totalTime, `calculate` returns the
SailOnly outcome (scenario code 1) with sail fraction exactly 1, motor fraction exactly 0,
and zero reported fuel in the rendered text; in particular the boundary case
distance/sailSpeed = totalTime selects SailOnly. -/
theorem calculate_sail_only_spec
    (st ar : String) (distance sail_speed motor_speed fuel_consumption : ℚ)
    (um nd : Bool) (s a : ℕ) (T : ℚ)
    (hs : parse_time st = some s) (ha : parse_time ar = some a)
    (hdist : 0 < distance) (hsail : 0 < sail_speed) (hmot : 0 < motor_speed)
    (hlt : sail_speed < motor_speed)
    (hT : T = (((a : ℤ) - (s : ℤ) + (if nd then 24 * 60 else 0) : ℤ) : ℚ) / 60)
    (hTpos : 0 < T)
    (hfit : distance / sail_speed ≤ T) :
    calculate st ar distance sail_speed motor_speed fuel_consumption um nd =
      { scenario := 1
        result_html := "Je kunt de hele afstand zeilen in " ++
          format_time (distance / sail_speed) ++ " (" ++ fmt2 distance ++ " " ++
          (if um then "km" else "zeemijl") ++ ").<br>Geschat brandstofverbruik: 0 liter."
        sail_fraction := 1
        motor_fraction := 0 } := by
  subst hT
  have hdiv : (if um then distance / 1.852 else distance) /
      (if um then sail_speed / 1.852 else sail_speed) = distance / sail_speed :=
    metric_div_cancel um distance (ne_of_gt hsail)
  rw [calculate_valid_eq fuel_consumption um hs ha (not_le.mpr hdist) (not_le.mpr hsail)
    (not_le.mpr hmot) (not_le.mpr hlt) (not_le.mpr hTpos)]
  rw [scenarioCore_sail_only _ _ _ _ (by rw [hdiv]; exact hfit)]
  rw [hdiv, metric_display_cancel]

/-- Witness for C3 at the specification's end-to-end example: start 09:00, arrival 15:00,
distance 30, sail speed 5, motor speed 8 (boundary case 30/5 = 6 = totalTime). -/
theorem calculate_sail_only_spec_witness :
    (calculate "09:00" "15:00" 30 5 8 2 false false).scenario = 1 ∧
    (calculate "09:00" "15:00" 30 5 8 2 false false).sail_fraction = 1 ∧
    (calculate "09:00" "15:00" 30 5 8 2 false false).motor_fraction = 0 := by
  rw [calculate_sail_only_spec "09:00" "15:00" 30 5 8 2 false false 540 900 6
    (by rfl) (by rfl) (by norm_num) (by norm_num) (by norm_num) (by norm_num)
    (by norm_num) (by norm_num) (by norm_num)]
  exact ⟨rfl, rfl, rfl⟩

lemma roundQ_nonneg {q : ℚ} (h : 0 ≤ q) : 0 ≤ roundQ q := by
  unfold roundQ
  rw [if_pos h]
  exact Int.le_floor.mpr (by push_cast; linarith)

lemma roundQ_le_of_le {q : ℚ} {B : ℤ} (h0 : 0 ≤ q) (h : q ≤ (B : ℚ)) : roundQ q ≤ B := by
  unfold roundQ
  rw [if_pos h0]
  have hlt : q + 1 / 2 < ((B + 1 : ℤ) : ℚ) := by
    push_cast
    linarith
  exact Int.lt_add_one_iff.mp (Int.floor_lt.mpr hlt)

lemma i32Sat_eq_self {z : ℤ} (h0 : 0 ≤ z) (hle : z ≤ 2147483647) : i32Sat z = z := by
  unfold i32Sat
  rw [if_neg (by omega), if_neg (by omega)]

lemma i32Add_eq_add {x y : ℤ} (h0 : -2147483648 ≤ x + y) (h1 : x + y ≤ 2147483647) :
    i32Add x y = x + y := by
  unfold i32Add
  omega

lemma parse_time_lt_1440 {t : String} {s : ℕ} (h : parse_time t = some s) : s < 1440 := by
  unfold parse_time at h
  split at h <;> try exact Option.noConfusion h
  split at h <;> try exact Option.noConfusion h
  split at h <;> try exact Option.noConfusion h
  have hval := Option.some_inj.mp h
  omega

/-- C1: for every valid input where sailing alone does not fit the budget
(distance/sailSpeed > totalTime, in internal units), with
changeover = (distance − motorSpeed·totalTime)/(sailSpeed − motorSpeed) and
0 ≤ changeover ≤ totalTime, `calculate` returns the SailAndMotor outcome (scenario
code 2) with distance sailed sailSpeed·changeover, motoring time
remainingDistance/motorSpeed, fuel motoringTime·fuelRate, sail fraction
changeover/totalTime and motor fraction motoringTime/totalTime. -/
theorem calculate_sail_and_motor_spec
    (st ar : String) (distance sail_speed motor_speed fuel_consumption : ℚ)
    (um nd : Bool) (s a : ℕ) (T d ss ms c : ℚ)
    (hs : parse_time st = some s) (ha : parse_time ar = some a)
    (hdist : 0 < distance) (hsail : 0 < sail_speed) (hmot : 0 < motor_speed)
    (hlt : sail_speed < motor_speed)
    (hT : T = (((a : ℤ) - (s : ℤ) + (if nd then 24 * 60 else 0) : ℤ) : ℚ) / 60)
    (hTpos : 0 < T)
    (hd : d = if um then distance / 1.852 else distance)
    (hss : ss = if um then sail_speed / 1.852 else sail_speed)
    (hms : ms = if um then motor_speed / 1.852 else motor_speed)
    (hnofit : T < d / ss)
    (hc : c = (d - ms * T) / (ss - ms))
    (hc0 : 0 ≤ c) (hcT : c ≤ T) :
    calculate st ar distance sail_speed motor_speed fuel_consumption um nd =
      { scenario := 2
        result_html := "Je kunt " ++ format_time c ++ " zeilen (" ++
          fmt2 (if um then ss * c * 1.852 else ss * c) ++ " " ++
          (if um then "km" else "zeemijl") ++
          "). Daarna moet je overschakelen naar de motor voor de resterende " ++
          fmt2 (if um then (d - ss * c) * 1.852 else d - ss * c) ++ " " ++
          (if um then "km" else "zeemijl") ++ ", wat " ++
          format_time ((d - ss * c) / ms) ++
          " duurt.<br>Start de motor om <strong>" ++
          format_clock ((s : ℤ) + i32Sat (roundQ (c * 60))) ++
          "</strong>.<br><br>Geschat brandstofverbruik: " ++
          fmt2 ((d - ss * c) / ms * fuel_consumption) ++ " liter."
        sail_fraction := c / T
        motor_fraction := (d - ss * c) / ms / T } := by
  subst hT hd hss hms
  have hs1440 := parse_time_lt_1440 hs
  have ha1440 := parse_time_lt_1440 ha
  have hc0e := hc0
  have hcTe := hcT
  rw [hc] at hc0e hcTe
  rw [calculate_valid_eq fuel_consumption um hs ha (not_le.mpr hdist) (not_le.mpr hsail)
    (not_le.mpr hmot) (not_le.mpr hlt) (not_le.mpr hTpos)]
  rw [scenarioCore_sail_motor _ _ _ (not_le.mpr hnofit) hc0e hcTe]
  rw [← hc]
  have hr0 : 0 ≤ roundQ (c * 60) := roundQ_nonneg (mul_nonneg hc0 (by norm_num))
  have hdiff : ((a : ℤ) - (s : ℤ) + (if nd then 24 * 60 else 0)) ≤ 2879 := by
    split_ifs <;> omega
  have hT60 : c * 60 ≤ (((a : ℤ) - (s : ℤ) + (if nd then 24 * 60 else 0) : ℤ) : ℚ) := by
    have h1 : c * 60 ≤
        (((a : ℤ) - (s : ℤ) + (if nd then 24 * 60 else 0) : ℤ) : ℚ) / 60 * 60 :=
      mul_le_mul_of_nonneg_right hcT (by norm_num)
    rwa [div_mul_cancel₀ _ (by norm_num : (60 : ℚ) ≠ 0)] at h1
  have hrle : roundQ (c * 60) ≤ 2879 :=
    roundQ_le_of_le (mul_nonneg hc0 (by norm_num)) (le_trans hT60 (by exact_mod_cast hdiff))
  have hadd : i32Add ((s : ℕ) : ℤ) (i32Sat (roundQ (c * 60))) =
      ((s : ℕ) : ℤ) + i32Sat (roundQ (c * 60)) := by
    rw [i32Sat_eq_self hr0 (by omega)]
    exact i32Add_eq_add (by omega) (by omega)
  rw [hadd]

/-- Witness for C1 at the specification's end-to-end example: start 09:00, arrival 15:00,
distance 40, sail speed 5, motor speed 8; changeover = (40 − 8·6)/(5 − 8) = 8/3. -/
theorem calculate_sail_and_motor_spec_witness :
    (calculate "09:00" "15:00" 40 5 8 2 false false).scenario = 2 ∧
    (calculate "09:00" "15:00" 40 5 8 2 false false).sail_fraction = 8 / 3 / 6 ∧
    (calculate "09:00" "15:00" 40 5 8 2 false false).motor_fraction =
      (40 - 5 * (8 / 3)) / 8 / 6 := by
  rw [calculate_sail_and_motor_spec "09:00" "15:00" 40 5 8 2 false false 540 900 6 40 5 8
    (8 / 3) (by rfl) (by rfl) (by norm_num) (by norm_num) (by norm_num) (by norm_num)
    (by norm_num) (by norm_num) (by norm_num) (by norm_num) (by norm_num) (by norm_num)
    (by norm_num) (by norm_num) (by norm_num)]
  exact ⟨rfl, rfl, rfl⟩

lemma scenarioCore_scenario_eq_four_iff (start_mins : ℤ)
    (total_time dist s_speed m_speed fuel_consumption : ℚ) (use_metric : Bool) :
    (scenarioCore start_mins total_time dist s_speed m_speed fuel_consumption
        use_metric).scenario = 4 ↔
      (¬dist / s_speed ≤ total_time ∧
        ¬(0 ≤ (dist - m_speed * total_time) / (s_speed - m_speed) ∧
          (dist - m_speed * total_time) / (s_speed - m_speed) ≤ total_time) ∧
        total_time < dist / m_speed) := by
  by_cases h1 : dist / s_speed ≤ total_time
  · rw [scenarioCore_sail_only _ _ _ _ h1]
    simp [h1]
  · by_cases h2 : 0 ≤ (dist - m_speed * total_time) / (s_speed - m_speed) ∧
      (dist - m_speed * total_time) / (s_speed - m_speed) ≤ total_time
    · rw [scenarioCore_sail_motor _ _ _ h1 h2.1 h2.2]
      simp [h1, h2]
    · by_cases h3 : total_time < dist / m_speed
      · rw [scenarioCore_motor_late _ _ _ h1 h2 h3]
        simp [h1, h2, h3]
      · rw [scenarioCore_motor_only _ _ _ h1 h2 h3]
        simp [h1, h2, h3]

/-- C2 (amended): `calculate` returns the MotorLate outcome (scenario code 4) iff the
input passes validation, the sail-only and sail-and-motor scenarios do not apply, and
distance/motorSpeed > totalTime; in that case sail fraction is 0, motor fraction is 1,
and the reported arrival clock time is rendered from the wrapping `i32` addition of
startMinutes and the i32-saturation of round(fullMotorTimeHours·60); whenever
startMinutes + round(fullMotorTimeHours·60) fits in `i32` (so neither the saturating
cast nor the wrapping addition loses anything), it equals
(startMinutes + round(fullMotorTimeHours·60)) mod 1440 rendered as zero-padded HH:MM. -/
theorem calculate_motor_late_spec
    (st ar : String) (distance sail_speed motor_speed fuel_consumption : ℚ)
    (um nd : Bool) (s a : ℕ) (T d ss ms : ℚ)
    (hs : parse_time st = some s) (ha : parse_time ar = some a)
    (hT : T = (((a : ℤ) - (s : ℤ) + (if nd then 24 * 60 else 0) : ℤ) : ℚ) / 60)
    (hd : d = if um then distance / 1.852 else distance)
    (hss : ss = if um then sail_speed / 1.852 else sail_speed)
    (hms : ms = if um then motor_speed / 1.852 else motor_speed) :
    ((calculate st ar distance sail_speed motor_speed fuel_consumption um nd).scenario = 4 ↔
      (0 < distance ∧ 0 < sail_speed ∧ 0 < motor_speed ∧ sail_speed < motor_speed ∧
        0 < T ∧ ¬d / ss ≤ T ∧
        ¬(0 ≤ (d - ms * T) / (ss - ms) ∧ (d - ms * T) / (ss - ms) ≤ T) ∧
        T < d / ms)) ∧
    ((calculate st ar distance sail_speed motor_speed fuel_consumption um nd).scenario = 4 →
      (calculate st ar distance sail_speed motor_speed fuel_consumption um nd).sail_fraction = 0 ∧
      (calculate st ar distance sail_speed motor_speed fuel_consumption um nd).motor_fraction = 1 ∧
      (calculate st ar distance sail_speed motor_speed fuel_consumption um nd).result_html =
        "Je kunt de hele afstand op de motor afleggen, maar je zult niet op tijd aankomen. <br>Je verwachte aankomsttijd is <strong>" ++
          format_clock (i32Add (s : ℤ) (i32Sat (roundQ (d / ms * 60)))) ++
          "</strong>.<br><br>Geschat brandstofverbruik: " ++
          fmt2 (d / ms * fuel_consumption) ++ " liter." ∧
      ((s : ℤ) + roundQ (d / ms * 60) ≤ 2147483647 →
        format_clock (i32Add (s : ℤ) (i32Sat (roundQ (d / ms * 60)))) =
          specClockHHMM ((s + (roundQ (d / ms * 60)).toNat) % 1440))) := by
  subst hT hd hss hms
  have hiff : (calculate st ar distance sail_speed motor_speed fuel_consumption um nd).scenario
      = 4 ↔
      (0 < distance ∧ 0 < sail_speed ∧ 0 < motor_speed ∧ sail_speed < motor_speed ∧
        0 < (((a : ℤ) - (s : ℤ) + (if nd then 24 * 60 else 0) : ℤ) : ℚ) / 60 ∧
        ¬(if um then distance / 1.852 else distance) /
            (if um then sail_speed / 1.852 else sail_speed) ≤
          (((a : ℤ) - (s : ℤ) + (if nd then 24 * 60 else 0) : ℤ) : ℚ) / 60 ∧
        ¬(0 ≤ ((if um then distance / 1.852 else distance) -
              (if um then motor_speed / 1.852 else motor_speed) *
                ((((a : ℤ) - (s : ℤ) + (if nd then 24 * 60 else 0) : ℤ) : ℚ) / 60)) /
              ((if um then sail_speed / 1.852 else sail_speed) -
                (if um then motor_speed / 1.852 else motor_speed)) ∧
            ((if um then distance / 1.852 else distance) -
              (if um then motor_speed / 1.852 else motor_speed) *
                ((((a : ℤ) - (s : ℤ) + (if nd then 24 * 60 else 0) : ℤ) : ℚ) / 60)) /
              ((if um then sail_speed / 1.852 else sail_speed) -
                (if um then motor_speed / 1.852 else motor_speed)) ≤
            (((a : ℤ) - (s : ℤ) + (if nd then 24 * 60 else 0) : ℤ) : ℚ) / 60) ∧
        (((a : ℤ) - (s : ℤ) + (if nd then 24 * 60 else 0) : ℤ) : ℚ) / 60 <
          (if um then distance / 1.852 else distance) /
            (if um then motor_speed / 1.852 else motor_speed)) := by
    constructor
    · intro h4
      by_cases h1 : distance ≤ 0
      · rw [calculate_err_distance sail_speed motor_speed fuel_consumption um nd hs ha h1] at h4
        simp [error_result, SCENARIO_ERROR] at h4
      · by_cases h2 : sail_speed ≤ 0
        · rw [calculate_err_sail motor_speed fuel_consumption um nd hs ha h1 h2] at h4
          simp [error_result, SCENARIO_ERROR] at h4
        · by_cases h3 : motor_speed ≤ 0
          · rw [calculate_err_motor fuel_consumption um nd hs ha h1 h2 h3] at h4
            simp [error_result, SCENARIO_ERROR] at h4
          · by_cases h4m : motor_speed ≤ sail_speed
            · rw [calculate_err_motor_le_sail fuel_consumption um nd hs ha h1 h2 h3 h4m] at h4
              simp [error_result, SCENARIO_ERROR] at h4
            · by_cases h5 : (((a : ℤ) - (s : ℤ) + (if nd then 24 * 60 else 0) : ℤ) : ℚ) / 60 ≤ 0
              · rw [calculate_err_time fuel_consumption um hs ha h1 h2 h3 h4m h5] at h4
                simp [error_result, SCENARIO_ERROR] at h4
              · rw [calculate_valid_eq fuel_consumption um hs ha h1 h2 h3 h4m h5] at h4
                obtain ⟨c6, c7, c8⟩ := (scenarioCore_scenario_eq_four_iff _ _ _ _ _ _ _).mp h4
                exact ⟨not_le.mp h1, not_le.mp h2, not_le.mp h3, not_le.mp h4m,
                  not_le.mp h5, c6, c7, c8⟩
    · rintro ⟨c1, c2, c3, c4, c5, c6, c7, c8⟩
      rw [calculate_valid_eq fuel_consumption um hs ha (not_le.mpr c1) (not_le.mpr c2)
        (not_le.mpr c3) (not_le.mpr c4) (not_le.mpr c5),
        scenarioCore_motor_late _ _ _ c6 c7 c8]
  refine ⟨hiff, fun h4 => ?_⟩
  obtain ⟨c1, c2, c3, c4, c5, c6, c7, c8⟩ := hiff.mp h4
  rw [calculate_valid_eq fuel_consumption um hs ha (not_le.mpr c1) (not_le.mpr c2)
    (not_le.mpr c3) (not_le.mpr c4) (not_le.mpr c5),
    scenarioCore_motor_late _ _ _ c6 c7 c8]
  refine ⟨rfl, rfl, rfl, fun hb => ?_⟩
  have hr0 : 0 ≤ roundQ ((if um then distance / 1.852 else distance) /
      (if um then motor_speed / 1.852 else motor_speed) * 60) :=
    roundQ_nonneg (mul_nonneg (le_of_lt (lt_trans c5 c8)) (by norm_num))
  have hble : roundQ ((if um then distance / 1.852 else distance) /
      (if um then motor_speed / 1.852 else motor_speed) * 60) ≤ 2147483647 := by
    omega
  rw [i32Sat_eq_self hr0 hble]
  have hadd : i32Add (s : ℤ) (roundQ ((if um then distance / 1.852 else distance) /
      (if um then motor_speed / 1.852 else motor_speed) * 60)) =
      (s : ℤ) + roundQ ((if um then distance / 1.852 else distance) /
        (if um then motor_speed / 1.852 else motor_speed) * 60) :=
    i32Add_eq_add (by omega) (by omega)
  rw [hadd]
  have hcast : (s : ℤ) + roundQ ((if um then distance / 1.852 else distance) /
      (if um then motor_speed / 1.852 else motor_speed) * 60) =
      ((s + (roundQ ((if um then distance / 1.852 else distance) /
        (if um then motor_speed / 1.852 else motor_speed) * 60)).toNat : ℕ) : ℤ) := by
    push_cast
    omega
  rw [hcast, format_clock_ofNat]

lemma fmt2_eq_of_round {q : ℚ} {n : ℤ} (hq : ¬q < 0) (hn : roundHalfEven (|q| * 100) = n) :
    fmt2 q = toString (n / 100) ++ "." ++ pad2 (n % 100) := by
  simp only [fmt2]
  rw [hn, if_neg hq]
  rfl

lemma format_time_eq_of_round {q : ℚ} {n : ℤ} (h : roundQ (q * 60) = n) :
    format_time q =
      (if 0 < u32Sat n % 60 then
        toString (u32Sat n / 60) ++ " uur en " ++ toString (u32Sat n % 60) ++ " minuten"
      else toString (u32Sat n / 60) ++ " uur") := by
  simp only [format_time]
  rw [h]

lemma roundQ_eq_of_floor {q : ℚ} {n : ℤ} (h0 : 0 ≤ q) (h : ⌊q + 1 / 2⌋ = n) : roundQ q = n := by
  unfold roundQ
  rw [if_pos h0, h]

/-- Counterexample for C2 as stated: at the valid input start 09:00, arrival 10:00,
distance 10⁹, sail speed 1, motor speed 2 (all nautical), `calculate` yields MotorLate,
but the Rust `as i32` cast saturates round(fullMotorTime·60) = 3·10¹⁰ at 2147483647 and
the release-mode `i32` addition 540 + 2147483647 wraps to −2147483109, so the rendered
clock is 07:51 while the claim's formula
(startMinutes + round(fullMotorTime·60)) mod 1440 renders 17:00. -/
theorem calculate_motor_late_counterexample :
    (calculate "09:00" "10:00" 1000000000 1 2 0 false false).scenario = 4 ∧
    (calculate "09:00" "10:00" 1000000000 1 2 0 false false).result_html =
      "Je kunt de hele afstand op de motor afleggen, maar je zult niet op tijd aankomen. <br>Je verwachte aankomsttijd is <strong>07:51</strong>.<br><br>Geschat brandstofverbruik: 0.00 liter." ∧
    specClockHHMM ((540 + (roundQ ((1000000000 : ℚ) / 2 * 60)).toNat) % 1440) = "17:00" ∧
    ("07:51" : String) ≠ "17:00" := by
  have h1 : parse_time "09:00" = some 540 := rfl
  have h2 : parse_time "10:00" = some 600 := rfl
  have hstep : calculate "09:00" "10:00" 1000000000 1 2 0 false false =
      scenarioCore ((540 : ℕ) : ℤ) 1 1000000000 1 2 0 false := by
    rw [calculate_valid_eq 0 false h1 h2 (by norm_num) (by norm_num) (by norm_num)
      (by norm_num) (by norm_num)]
    norm_num
  have hnofit : ¬(1000000000 : ℚ) / 1 ≤ 1 := by norm_num
  have hnc : ¬(0 ≤ ((1000000000 : ℚ) - 2 * 1) / (1 - 2) ∧
      ((1000000000 : ℚ) - 2 * 1) / (1 - 2) ≤ 1) := by norm_num
  have hlate : (1 : ℚ) < 1000000000 / 2 := by norm_num
  have hr : roundQ ((1000000000 : ℚ) / 2 * 60) = 30000000000 :=
    roundQ_eq_of_floor (by norm_num) (by norm_num)
  have hsat : i32Sat (30000000000 : ℤ) = 2147483647 := by decide
  have hfuel : ((1000000000 : ℚ) / 2 * 0) = 0 := by norm_num
  have hfmt : fmt2 (0 : ℚ) = "0.00" := by
    have h0 : roundHalfEven (|(0 : ℚ)| * 100) = 0 := by
      unfold roundHalfEven
      norm_num
    rw [fmt2_eq_of_round (by norm_num) h0]
    rfl
  refine ⟨?_, ?_, ?_, by decide⟩
  · rw [hstep, scenarioCore_motor_late _ _ _ hnofit hnc hlate]
  · rw [hstep, scenarioCore_motor_late _ _ _ hnofit hnc hlate]
    show "Je kunt de hele afstand op de motor afleggen, maar je zult niet op tijd aankomen. <br>Je verwachte aankomsttijd is <strong>" ++
        format_clock (i32Add ((540 : ℕ) : ℤ) (i32Sat (roundQ ((1000000000 : ℚ) / 2 * 60)))) ++
        "</strong>.<br><br>Geschat brandstofverbruik: " ++
        fmt2 ((1000000000 : ℚ) / 2 * 0) ++ " liter." = _
    rw [hr, hsat, hfuel, hfmt]
    rfl
  · rw [hr]
    decide

/-- Witness for C2 at start 09:00, arrival 10:00, distance 30, sail 5, motor 8:
full motor time 3.75 h exceeds the 1 h budget, so MotorLate with fractions (0, 1). -/
theorem calculate_motor_late_spec_witness :
    (calculate "09:00" "10:00" 30 5 8 2 false false).scenario = 4 ∧
    (calculate "09:00" "10:00" 30 5 8 2 false false).sail_fraction = 0 ∧
    (calculate "09:00" "10:00" 30 5 8 2 false false).motor_fraction = 1 := by
  obtain ⟨hiff, himp⟩ := calculate_motor_late_spec "09:00" "10:00" 30 5 8 2 false false
    540 600 1 30 5 8 rfl rfl (by norm_num) (by norm_num) (by norm_num) (by norm_num)
  have h4 := hiff.mpr (by norm_num)
  obtain ⟨hf1, hf2, _, _⟩ := himp h4
  exact ⟨h4, hf1, hf2⟩

lemma frac_bounds_sail_motor {T c mt : ℚ} (hT : 0 < T) (hc0 : 0 ≤ c) (hcT : c ≤ T)
    (hmt : mt = T - c) :
    0 ≤ c / T ∧ c / T ≤ 1 ∧ 0 ≤ mt / T ∧ mt / T ≤ 1 ∧ c / T + mt / T ≤ 1 ∧
      c / T + mt / T = 1 := by
  subst hmt
  have hTne : T ≠ 0 := ne_of_gt hT
  have hsum : c / T + (T - c) / T = 1 := by field_simp
  exact ⟨div_nonneg hc0 hT.le, (div_le_one hT).mpr hcT, div_nonneg (by linarith) hT.le,
    (div_le_one hT).mpr (by linarith), le_of_eq hsum, hsum⟩

lemma scenarioCore_fractions (start_mins : ℤ) (T d ss ms fc : ℚ) (um : Bool)
    (hT : 0 < T) (hd : 0 < d) (hss : 0 < ss) (hms : 0 < ms) (hlt : ss < ms) :
    0 ≤ (scenarioCore start_mins T d ss ms fc um).sail_fraction ∧
    (scenarioCore start_mins T d ss ms fc um).sail_fraction ≤ 1 ∧
    0 ≤ (scenarioCore start_mins T d ss ms fc um).motor_fraction ∧
    (scenarioCore start_mins T d ss ms fc um).motor_fraction ≤ 1 ∧
    (scenarioCore start_mins T d ss ms fc um).sail_fraction +
      (scenarioCore start_mins T d ss ms fc um).motor_fraction ≤ 1 ∧
    ((scenarioCore start_mins T d ss ms fc um).scenario = 2 →
      (scenarioCore start_mins T d ss ms fc um).sail_fraction +
        (scenarioCore start_mins T d ss ms fc um).motor_fraction = 1) := by
  by_cases h1 : d / ss ≤ T
  · rw [scenarioCore_sail_only _ _ _ _ h1]
    norm_num
  · by_cases h2 : 0 ≤ (d - ms * T) / (ss - ms) ∧ (d - ms * T) / (ss - ms) ≤ T
    · rw [scenarioCore_sail_motor _ _ _ h1 h2.1 h2.2]
      have hne : ss - ms ≠ 0 := ne_of_lt (sub_neg.mpr hlt)
      have F := frac_bounds_sail_motor hT h2.1 h2.2
        (motoring_eq_total_sub_changeover hne (ne_of_gt hms))
      exact ⟨F.1, F.2.1, F.2.2.1, F.2.2.2.1, F.2.2.2.2.1, fun _ => F.2.2.2.2.2⟩
    · by_cases h3 : T < d / ms
      · rw [scenarioCore_motor_late _ _ _ h1 h2 h3]
        norm_num
      · rw [scenarioCore_motor_only _ _ _ h1 h2 h3]
        have hmf0 : 0 ≤ d / ms / T := div_nonneg (div_nonneg hd.le hms.le) hT.le
        have hmf1 : d / ms / T ≤ 1 := (div_le_one hT).mpr (not_lt.mp h3)
        refine ⟨le_refl 0, zero_le_one, hmf0, hmf1, ?_, fun h => by simp at h⟩
        show (0 : ℚ) + d / ms / T ≤ 1
        linarith

/-- C4: for every input (valid or not), the sail fraction and motor fraction of the
returned outcome both lie in [0, 1] and their sum is at most 1; and whenever the outcome
is SailAndMotor (scenario code 2), sailFraction + motorFraction equals 1 exactly in
rational arithmetic. -/
theorem calculate_fractions_invariant
    (st ar : String) (distance sail_speed motor_speed fuel_consumption : ℚ) (um nd : Bool) :
    0 ≤ (calculate st ar distance sail_speed motor_speed fuel_consumption um nd).sail_fraction ∧
    (calculate st ar distance sail_speed motor_speed fuel_consumption um nd).sail_fraction ≤ 1 ∧
    0 ≤ (calculate st ar distance sail_speed motor_speed fuel_consumption um nd).motor_fraction ∧
    (calculate st ar distance sail_speed motor_speed fuel_consumption um nd).motor_fraction ≤ 1 ∧
    (calculate st ar distance sail_speed motor_speed fuel_consumption um nd).sail_fraction +
      (calculate st ar distance sail_speed motor_speed fuel_consumption um nd).motor_fraction
      ≤ 1 ∧
    ((calculate st ar distance sail_speed motor_speed fuel_consumption um nd).scenario = 2 →
      (calculate st ar distance sail_speed motor_speed fuel_consumption um nd).sail_fraction +
        (calculate st ar distance sail_speed motor_speed fuel_consumption um nd).motor_fraction
        = 1) := by
  rcases hps : parse_time st with _ | s
  · rw [calculate_err_start ar distance sail_speed motor_speed fuel_consumption um nd hps]
    norm_num [error_result, SCENARIO_ERROR]
  · rcases hpa : parse_time ar with _ | a
    · rw [calculate_err_arrival distance sail_speed motor_speed fuel_consumption um nd hps hpa]
      norm_num [error_result, SCENARIO_ERROR]
    · by_cases h1 : distance ≤ 0
      · rw [calculate_err_distance sail_speed motor_speed fuel_consumption um nd hps hpa h1]
        norm_num [error_result, SCENARIO_ERROR]
      · by_cases h2 : sail_speed ≤ 0
        · rw [calculate_err_sail motor_speed fuel_consumption um nd hps hpa h1 h2]
          norm_num [error_result, SCENARIO_ERROR]
        · by_cases h3 : motor_speed ≤ 0
          · rw [calculate_err_motor fuel_consumption um nd hps hpa h1 h2 h3]
            norm_num [error_result, SCENARIO_ERROR]
          · by_cases h4 : motor_speed ≤ sail_speed
            · rw [calculate_err_motor_le_sail fuel_consumption um nd hps hpa h1 h2 h3 h4]
              norm_num [error_result, SCENARIO_ERROR]
            · by_cases h5 : (((a : ℤ) - (s : ℤ) + (if nd then 24 * 60 else 0) : ℤ) : ℚ) / 60 ≤ 0
              · rw [calculate_err_time fuel_consumption um hps hpa h1 h2 h3 h4 h5]
                norm_num [error_result, SCENARIO_ERROR]
              · rw [calculate_valid_eq fuel_consumption um hps hpa h1 h2 h3 h4 h5]
                exact scenarioCore_fractions _ _ _ _ _ _ _ (not_le.mp h5)
                  (metric_pos um (not_le.mp h1)) (metric_pos um (not_le.mp h2))
                  (metric_pos um (not_le.mp h3)) (metric_lt um (not_le.mp h4))

/-- C5: `calculate` returns the Error outcome (scenario code 0) exactly when validation
fails, with a distinct message per case, checked fail-fast in source order: start time
unparseable; arrival time unparseable; distance ≤ 0; sail speed ≤ 0; motor speed ≤ 0;
motor speed ≤ sail speed; computed total time ≤ 0.  (`calculate` is a total function, so
every path returns a result value.) -/
theorem calculate_error_spec
    (st ar : String) (distance sail_speed motor_speed fuel_consumption : ℚ) (um nd : Bool) :
    (parse_time st = none →
      calculate st ar distance sail_speed motor_speed fuel_consumption um nd =
        error_result "Ongeldige starttijd.") ∧
    (∀ s : ℕ, parse_time st = some s → parse_time ar = none →
      calculate st ar distance sail_speed motor_speed fuel_consumption um nd =
        error_result "Ongeldige aankomsttijd.") ∧
    (∀ s a : ℕ, parse_time st = some s → parse_time ar = some a → distance ≤ 0 →
      calculate st ar distance sail_speed motor_speed fuel_consumption um nd =
        error_result "Afstand moet groter zijn dan 0.") ∧
    (∀ s a : ℕ, parse_time st = some s → parse_time ar = some a → 0 < distance →
      sail_speed ≤ 0 →
      calculate st ar distance sail_speed motor_speed fuel_consumption um nd =
        error_result "Zeilsnelheid moet groter zijn dan 0.") ∧
    (∀ s a : ℕ, parse_time st = some s → parse_time ar = some a → 0 < distance →
      0 < sail_speed → motor_speed ≤ 0 →
      calculate st ar distance sail_speed motor_speed fuel_consumption um nd =
        error_result "Motorsnelheid moet groter zijn dan 0.") ∧
    (∀ s a : ℕ, parse_time st = some s → parse_time ar = some a → 0 < distance →
      0 < sail_speed → 0 < motor_speed → motor_speed ≤ sail_speed →
      calculate st ar distance sail_speed motor_speed fuel_consumption um nd =
        error_result "Motorsnelheid moet groter zijn dan zeilsnelheid.") ∧
    (∀ s a : ℕ, parse_time st = some s → parse_time ar = some a → 0 < distance →
      0 < sail_speed → 0 < motor_speed → sail_speed < motor_speed →
      (((a : ℤ) - (s : ℤ) + (if nd then 24 * 60 else 0) : ℤ) : ℚ) / 60 ≤ 0 →
      calculate st ar distance sail_speed motor_speed fuel_consumption um nd =
        error_result "Aankomsttijd moet later zijn dan starttijd.") ∧
    List.Pairwise (fun x y => x ≠ y)
      ["Ongeldige starttijd.", "Ongeldige aankomsttijd.", "Afstand moet groter zijn dan 0.",
        "Zeilsnelheid moet groter zijn dan 0.", "Motorsnelheid moet groter zijn dan 0.",
        "Motorsnelheid moet groter zijn dan zeilsnelheid.",
        "Aankomsttijd moet later zijn dan starttijd."] ∧
    ((calculate st ar distance sail_speed motor_speed fuel_consumption um nd).scenario = 0 ↔
      ¬∃ s a : ℕ, parse_time st = some s ∧ parse_time ar = some a ∧ 0 < distance ∧
        0 < sail_speed ∧ 0 < motor_speed ∧ sail_speed < motor_speed ∧
        0 < (((a : ℤ) - (s : ℤ) + (if nd then 24 * 60 else 0) : ℤ) : ℚ) / 60) := by
  refine ⟨fun h => calculate_err_start ar distance sail_speed motor_speed fuel_consumption
      um nd h,
    fun s hs hpa => calculate_err_arrival distance sail_speed motor_speed fuel_consumption
      um nd hs hpa,
    fun s a hs ha h => calculate_err_distance sail_speed motor_speed fuel_consumption
      um nd hs ha h,
    fun s a hs ha hd h => calculate_err_sail motor_speed fuel_consumption um nd hs ha
      (not_le.mpr hd) h,
    fun s a hs ha hd hss h => calculate_err_motor fuel_consumption um nd hs ha
      (not_le.mpr hd) (not_le.mpr hss) h,
    fun s a hs ha hd hss hms h => calculate_err_motor_le_sail fuel_consumption um nd hs ha
      (not_le.mpr hd) (not_le.mpr hss) (not_le.mpr hms) h,
    fun s a hs ha hd hss hms hlt h => calculate_err_time fuel_consumption um hs ha
      (not_le.mpr hd) (not_le.mpr hss) (not_le.mpr hms) (not_le.mpr hlt) h,
    by decide, ?_⟩
  constructor
  · intro h0
    rintro ⟨s, a, hs, ha, c1, c2, c3, c4, c5⟩
    rw [calculate_valid_eq fuel_consumption um hs ha (not_le.mpr c1) (not_le.mpr c2)
      (not_le.mpr c3) (not_le.mpr c4) (not_le.mpr c5)] at h0
    exact scenarioCore_scenario_ne_zero _ _ _ _ _ _ _ h0
  · intro hninv
    rcases hps : parse_time st with _ | s
    · rw [calculate_err_start ar distance sail_speed motor_speed fuel_consumption um nd hps]
      rfl
    · rcases hpa : parse_time ar with _ | a
      · rw [calculate_err_arrival distance sail_speed motor_speed fuel_consumption um nd
          hps hpa]
        rfl
      · by_cases h1 : distance ≤ 0
        · rw [calculate_err_distance sail_speed motor_speed fuel_consumption um nd hps hpa h1]
          rfl
        · by_cases h2 : sail_speed ≤ 0
          · rw [calculate_err_sail motor_speed fuel_consumption um nd hps hpa h1 h2]
            rfl
          · by_cases h3 : motor_speed ≤ 0
            · rw [calculate_err_motor fuel_consumption um nd hps hpa h1 h2 h3]
              rfl
            · by_cases h4 : motor_speed ≤ sail_speed
              · rw [calculate_err_motor_le_sail fuel_consumption um nd hps hpa h1 h2 h3 h4]
                rfl
              · by_cases h5 : (((a : ℤ) - (s : ℤ) + (if nd then 24 * 60 else 0) : ℤ) : ℚ) /
                    60 ≤ 0
                · rw [calculate_err_time fuel_consumption um hps hpa h1 h2 h3 h4 h5]
                  rfl
                · exact absurd ⟨s, a, hps, hpa, not_le.mp h1, not_le.mp h2, not_le.mp h3,
                    not_le.mp h4, not_le.mp h5⟩ hninv

/-- C9: on every validated input, all divisors in the scenario arithmetic are nonzero:
the internal sail speed, motor speed and total time are strictly positive and the speed
difference sailSpeed − motorSpeed is strictly negative, so no division by zero is
reachable, and `calculate` does not return the Error outcome. -/
theorem calculate_no_zero_divisors
    (st ar : String) (distance sail_speed motor_speed fuel_consumption : ℚ)
    (um nd : Bool) (s a : ℕ) (T d ss ms : ℚ)
    (hs : parse_time st = some s) (ha : parse_time ar = some a)
    (hdist : 0 < distance) (hsail : 0 < sail_speed) (hmot : 0 < motor_speed)
    (hlt : sail_speed < motor_speed)
    (hT : T = (((a : ℤ) - (s : ℤ) + (if nd then 24 * 60 else 0) : ℤ) : ℚ) / 60)
    (hTpos : 0 < T)
    (hd : d = if um then distance / 1.852 else distance)
    (hss : ss = if um then sail_speed / 1.852 else sail_speed)
    (hms : ms = if um then motor_speed / 1.852 else motor_speed) :
    0 < ss ∧ 0 < ms ∧ 0 < T ∧ ss - ms < 0 ∧
    (calculate st ar distance sail_speed motor_speed fuel_consumption um nd).scenario ≠ 0 := by
  subst hT hd hss hms
  refine ⟨metric_pos um hsail, metric_pos um hmot, hTpos, sub_neg.mpr (metric_lt um hlt), ?_⟩
  rw [calculate_valid_eq fuel_consumption um hs ha (not_le.mpr hdist) (not_le.mpr hsail)
    (not_le.mpr hmot) (not_le.mpr hlt) (not_le.mpr hTpos)]
  exact scenarioCore_scenario_ne_zero _ _ _ _ _ _ _

/-- Witness for C9 at start 09:00, arrival 15:00, distance 30, sail 5, motor 8. -/
theorem calculate_no_zero_divisors_witness :
    (0 : ℚ) < 5 ∧ (0 : ℚ) < 8 ∧ (0 : ℚ) < 6 ∧ (5 : ℚ) - 8 < 0 ∧
    (calculate "09:00" "15:00" 30 5 8 2 false false).scenario ≠ 0 :=
  calculate_no_zero_divisors "09:00" "15:00" 30 5 8 2 false false 540 900 6 30 5 8
    rfl rfl (by norm_num) (by norm_num) (by norm_num) (by norm_num) (by norm_num)
    (by norm_num) (by norm_num) (by norm_num) (by norm_num)

/-- Counterexample for C6: `format_clock` does not wrap the offset −30 backward to
"23:30"; the Rust `i32` division truncates toward zero, so the hour component does not
borrow from negative minutes and the result is "00:30". -/
theorem format_clock_neg_counterexample : format_clock (-30) ≠ "23:30" := by
  decide

/-- C6 (amended): `format_clock` wraps every nonnegative minute offset (including
offsets ≥ 1440) correctly onto a 24-hour clock, and formatClock(1440) = "00:00"; but for
negative offsets the minutes wrap while the hour does not borrow when the offset is not a
multiple of 60: formatClock(−30) = "00:30" (not "23:30"). -/
theorem format_clock_spec_amended :
    format_clock (-30) = "00:30" ∧ format_clock 1440 = "00:00" ∧
    (∀ n : ℕ, format_clock (n : ℤ) = specClockHHMM (n % 1440)) :=
  ⟨by decide, by decide, format_clock_ofNat⟩

/-- C7: `format_time` converts fractional hours by rounding total minutes (not
truncating), carries a 60-minute rollover into the hour, and omits the minutes clause
exactly when the rounded minute component is 0; in particular formatTime(1) = "1 uur",
formatTime(1.5) = "1 uur en 30 minuten", and formatTime(0.999999) = "1 uur". -/
theorem format_time_spec :
    (∀ q : ℚ, format_time q =
      if u32Sat (roundQ (q * 60)) % 60 = 0 then
        toString (u32Sat (roundQ (q * 60)) / 60) ++ " uur"
      else
        toString (u32Sat (roundQ (q * 60)) / 60) ++ " uur en " ++
          toString (u32Sat (roundQ (q * 60)) % 60) ++ " minuten") ∧
    format_time 1 = "1 uur" ∧
    format_time (3 / 2) = "1 uur en 30 minuten" ∧
    format_time (999999 / 1000000) = "1 uur" := by
  have h1 : roundQ ((1 : ℚ) * 60) = 60 := roundQ_eq_of_floor (by norm_num) (by norm_num)
  have h2 : roundQ ((3 / 2 : ℚ) * 60) = 90 := roundQ_eq_of_floor (by norm_num) (by norm_num)
  have h3 : roundQ ((999999 / 1000000 : ℚ) * 60) = 60 := roundQ_eq_of_floor (by norm_num)
    (by norm_num)
  refine ⟨?_, ?_, ?_, ?_⟩
  · intro q
    simp only [format_time]
    by_cases h : u32Sat (roundQ (q * 60)) % 60 = 0
    · rw [if_neg (by omega), if_pos h]
    · rw [if_pos (by omega), if_neg h]
  · rw [format_time_eq_of_round h1]
    decide
  · rw [format_time_eq_of_round h2]
    decide
  · rw [format_time_eq_of_round h3]
    decide

/-- C8: `needs_next_day` returns true iff both time strings parse and the parsed arrival
is strictly before the parsed start; equal times yield false, and unparseable input
yields false.  In particular needsNextDay("08:00","07:59") = true and
needsNextDay("08:00","08:00") = false. -/
theorem needs_next_day_spec :
    (∀ st ar : String, needs_next_day st ar = true ↔
      ∃ s a : ℕ, parse_time st = some s ∧ parse_time ar = some a ∧ a < s) ∧
    (∀ st ar : String, parse_time st = none → needs_next_day st ar = false) ∧
    (∀ st ar : String, parse_time ar = none → needs_next_day st ar = false) ∧
    needs_next_day "08:00" "07:59" = true ∧
    needs_next_day "08:00" "08:00" = false := by
  refine ⟨?_, ?_, ?_, by decide, by decide⟩
  · intro st ar
    rcases hps : parse_time st with _ | s
    · simp [needs_next_day, hps]
    · rcases hpa : parse_time ar with _ | a
      · simp [needs_next_day, hps, hpa]
      · simp [needs_next_day, hps, hpa]
  · intro st ar h
    simp [needs_next_day, h]
  · intro st ar h
    rcases hps : parse_time st with _ | s <;> simp [needs_next_day, hps, h]

/-- C10: time-string acceptance is more lenient than zero-padded HH:MM: a string is
accepted exactly when splitting on ':' yields exactly two parts that each parse as an
unsigned integer (optional leading '+', ASCII digits, so "9:5", "+9:05" and "009:0005"
are accepted), with hour < 24 and minute < 60; one part, three parts, a '-' sign, empty,
or non-numeric parts are rejected, and the leniency flows into `calculate` and
`needs_next_day`. -/
theorem parse_time_lenient_spec :
    (∀ t : String, (parse_time t).isSome = true ↔
      ∃ p0 p1 : List Char, ∃ h m : ℕ, splitOnColon t.toList = [p0, p1] ∧
        parseU32 p0 = some h ∧ parseU32 p1 = some m ∧ h < 24 ∧ m < 60) ∧
    parse_time "9:5" = some 545 ∧
    parse_time "+9:05" = some 545 ∧
    parse_time "009:0005" = some 545 ∧
    parse_time "9" = none ∧
    parse_time "9:5:0" = none ∧
    parse_time "-9:5" = none ∧
    parse_time ":5" = none ∧
    parse_time "9:" = none ∧
    parse_time "9:x" = none ∧
    parse_time "24:00" = none ∧
    parse_time "23:60" = none ∧
    parse_time "23:59" = some 1439 ∧
    (calculate "9:5" "10:5" 1 1 2 0 false false).scenario = 1 ∧
    needs_next_day "9:5" "8:5" = true := by
  refine ⟨?_, by decide, by decide, by decide, by decide, by decide, by decide, by decide,
    by decide, by decide, by decide, by decide, by decide, ?_, by decide⟩
  · intro t
    unfold parse_time
    rcases hsp : splitOnColon t.toList with _ | ⟨p0, rest⟩
    · simp [hsp]
    · rcases rest with _ | ⟨p1, rest2⟩
      · simp [hsp]
      · rcases rest2 with _ | ⟨p2, rest3⟩
        · rcases hp0 : parseU32 p0 with _ | h
          · simp only [hsp, hp0]
            refine ⟨fun hC => by simp at hC, ?_⟩
            rintro ⟨p0', p1', h', m', heq, hh', hm', _, _⟩
            obtain ⟨e1, e2⟩ : p0 = p0' ∧ p1 = p1' := by simpa using heq
            subst e1
            rw [hp0] at hh'
            exact Option.noConfusion hh'
          · rcases hp1 : parseU32 p1 with _ | m
            · simp only [hsp, hp0, hp1]
              refine ⟨fun hC => by simp at hC, ?_⟩
              rintro ⟨p0', p1', h', m', heq, hh', hm', _, _⟩
              obtain ⟨e1, e2⟩ : p0 = p0' ∧ p1 = p1' := by simpa using heq
              subst e2
              rw [hp1] at hm'
              exact Option.noConfusion hm'
            · simp only [hsp, hp0, hp1]
              split_ifs with hc
              · refine ⟨fun hC => by simp at hC, ?_⟩
                rintro ⟨p0', p1', h', m', heq, hh', hm', hlt1, hlt2⟩
                obtain ⟨e1, e2⟩ : p0 = p0' ∧ p1 = p1' := by simpa using heq
                subst e1 e2
                rw [hp0] at hh'
                rw [hp1] at hm'
                obtain rfl : h = h' := by simpa using hh'
                obtain rfl : m = m' := by simpa using hm'
                omega
              · refine ⟨fun _ => ⟨p0, p1, h, m, rfl, hp0, hp1, by omega, by omega⟩,
                  fun _ => rfl⟩
        · simp [hsp]
  · have hs95 : parse_time "9:5" = some 545 := rfl
    have ha105 : parse_time "10:5" = some 605 := rfl
    rw [calculate_valid_eq 0 false hs95 ha105 (by norm_num) (by norm_num) (by norm_num)
      (by norm_num) (by norm_num)]
    rw [scenarioCore_sail_only _ _ _ _ (by norm_num)]

end WasmDemo
